import Mathlib

/-!
Shallow embedding of the inventory-reservation and order/payment
reconciliation core of the agrofarm backend.

Sources embedded here:
- src/src/routes/cart.js : the cart service (add, remove, restore-stock)
  acting on the Redis fast store (stock counters and hold hashes);
- src/src/routes/order.js : the order orchestrator (stock check,
  authoritative decrement, payment creation, rollback on throw);
- the reservation reclaimer function restoreExpiringCartHolds;
- the Razorpay webhook handler POST /api/payment/hook.

Modelling conventions:
- Redis string keys of the form stock:productId are keyed here by the
  productId alone; hash keys hold:productId:cartId are keyed by the pair
  (productId, cartId).
- Numeric values read from Redis go through parseInt in the source; a
  field that is missing or non-numeric parses to a value that fails the
  truthiness checks, which we model as Option Int with none for
  missing-or-non-numeric.
- Stores are association lists (first match wins), matching the
  one-value-per-key semantics of Redis and MongoDB lookups.
- Each HTTP handler becomes a pure function from the store state and the
  request data to the new store state plus a response; an error response
  returned before any write leaves the state component unchanged, exactly
  as the early returns in the source perform no Redis/Mongo writes.
-/

namespace Agrofarm

/-- First-match association-list lookup (Redis GET / HGETALL, Mongoose findOne). -/
def alookup {κ α : Type} [DecidableEq κ] : List (κ × α) → κ → Option α
  | [], _ => none
  | e :: rest, k => if e.1 = k then some e.2 else alookup rest k

/-- Set the value at a key, replacing the first matching entry or appending
a fresh one (Redis SET / HSET on a possibly absent key). -/
def aset {κ α : Type} [DecidableEq κ] : List (κ × α) → κ → α → List (κ × α)
  | [], k, v => [(k, v)]
  | e :: rest, k, v => if e.1 = k then (k, v) :: rest else e :: aset rest k v

/-- Delete a key (Redis DEL); deleting an absent key is a no-op. -/
def aerase {κ α : Type} [DecidableEq κ] : List (κ × α) → κ → List (κ × α)
  | [], _ => []
  | e :: rest, k => if e.1 = k then aerase rest k else e :: aerase rest k

/-- Stock counters: value of stock:productId, through parseInt(x or 0),
so an absent key reads as 0 (cart.js line 17). -/
def getInt (l : List (String × Int)) (k : String) : Int :=
  (alookup l k).getD 0

/-- Redis INCRBY/DECRBY: an absent key starts from 0. -/
def incrbyK (l : List (String × Int)) (k : String) (v : Int) : List (String × Int) :=
  aset l k (getInt l k + v)

/-- The Redis hash stored at hold:productId:cartId. The source writes the
fields quantity and createdAt (cart.js lines 29-32) and reads them back
through parseInt; none models a missing or non-numeric field. -/
structure HoldHash where
  quantity : Option Int
  createdAt : Option Int
deriving DecidableEq, Repr

/-- The fast shared store: stock counters keyed by productId and hold
hashes keyed by (productId, cartId). -/
structure Redis where
  stocks : List (String × Int)
  holds : List ((String × String) × HoldHash)
deriving DecidableEq, Repr

/-- Response of a cart route: ok is the res.json success payload, err a
sendErrorResponse with its message. -/
inductive CartResp where
  | ok
  | err (msg : String)
deriving DecidableEq, Repr

/-- The parsed quantity field of the hold at a key:
parseInt(await redis.hget(holdKey, quantity) or 0), so 0 when the hash or
the field is absent (cart.js lines 19-20 and 53-54). -/
def holdQuantity (r : Redis) (productId cartId : String) : Int :=
  ((alookup r.holds (productId, cartId)).bind HoldHash.quantity).getD 0

/-- POST /api/cart/add (cart.js lines 11-39). Reads the stock counter and
the current hold quantity; rejects when currentStock < currentHold + qty;
otherwise DECRBYs the counter by qty and HSETs the hold hash with the
fields quantity (the raw request qty, overwriting any previous value: the
computed newTotalHoldQuantity is used only in the check) and createdAt
(the current time, overwriting any previous value). -/
def addToCart (r : Redis) (productId cartId : String) (quantity now : Int) :
    Redis × CartResp :=
  let currentStock := getInt r.stocks productId
  let currentHoldQuantity := holdQuantity r productId cartId
  let newTotalHoldQuantity := currentHoldQuantity + quantity
  if currentStock < newTotalHoldQuantity then
    (r, .err "Not enough stock available")
  else
    ({ stocks := incrbyK r.stocks productId (-quantity),
       holds := aset r.holds (productId, cartId)
         { quantity := some quantity, createdAt := some now } },
     .ok)

/-- HINCRBY on the quantity field of a hold hash (cart.js line 63): an
absent hash or field starts from 0; other fields are untouched. -/
def hincrbyQuantity (l : List ((String × String) × HoldHash))
    (k : String × String) (v : Int) : List ((String × String) × HoldHash) :=
  match alookup l k with
  | some h => aset l k { h with quantity := some (h.quantity.getD 0 + v) }
  | none => aset l k { quantity := some v, createdAt := none }

/-- POST /api/cart/remove (cart.js lines 42-77). Rejects a non-positive
quantity, then rejects quantities above the current hold; otherwise
INCRBYs the stock counter back, and either HINCRBYs the hold quantity
down (leaving createdAt untouched) or, when the full hold is released,
deletes the hold hash. -/
def removeFromCart (r : Redis) (productId cartId : String) (quantity : Int) :
    Redis × CartResp :=
  let restoreQty := quantity
  if restoreQty ≤ 0 then
    (r, .err "Invalid quantity to restore")
  else
    let currentHoldQuantity := holdQuantity r productId cartId
    if restoreQty > currentHoldQuantity then
      (r, .err "Cannot restore more stock than held in the cart")
    else
      let stocks1 := incrbyK r.stocks productId restoreQty
      if restoreQty < currentHoldQuantity then
        ({ stocks := stocks1,
           holds := hincrbyQuantity r.holds (productId, cartId) (-restoreQty) },
         .ok)
      else
        ({ stocks := stocks1,
           holds := aerase r.holds (productId, cartId) },
         .ok)

/-- Body of the loop of POST /api/cart/restore-stock (cart.js lines
145-161): for each submitted item, when the client-supplied quantity is
positive, INCRBY the stock counter by that quantity and DEL the hold key;
the quantity recorded in the hold hash is never consulted (the hget is
commented out in the source). -/
def restoreStockItems (r : Redis) (cartId : String) :
    List (String × Int) → Redis
  | [] => r
  | (productId, qty) :: rest =>
    if qty > 0 then
      restoreStockItems
        { stocks := incrbyK r.stocks productId qty,
          holds := aerase r.holds (productId, cartId) } cartId rest
    else
      restoreStockItems r cartId rest

/-- POST /api/cart/restore-stock (cart.js lines 137-168): rejects a
missing cartId or an empty items array, else runs the restore loop. -/
def restoreStock (r : Redis) (cartId : String) (items : List (String × Int)) :
    Redis × CartResp :=
  if cartId = "" ∨ items.isEmpty then
    (r, .err "Invalid request")
  else
    (restoreStockItems r cartId items, .ok)

/-- Sum of the recorded quantities of all holds for a given product,
across all carts (the active-hold total of the ledger invariant). -/
def holdsSum : List ((String × String) × HoldHash) → String → Int
  | [], _ => 0
  | e :: rest, p =>
    (if e.1.1 = p then e.2.quantity.getD 0 else 0) + holdsSum rest p

/-! ## Order orchestrator: POST /api/orders (order.js lines 18-196) -/

/-- An authoritative Product document (src/src/models/product.js): the
fields the orchestrator reads. Keyed by sku in the store. -/
structure Product where
  price : Int
  stock : Int
  productname : String
deriving DecidableEq, Repr

/-- The authoritative product store, keyed by sku. -/
abbrev ProductDb := List (String × Product)

/-- An order line snapshotted into orderItemsForDb (order.js lines 58-63). -/
structure OrderItem where
  sku : String
  qty : Int
  priceAtOrder : Int
  productNameAtOrder : String
deriving DecidableEq, Repr

/-- Outcome of the createPayment call as seen by order.js line 66:
result.success is either true or false (createPayment catches its own
exceptions and returns success false). -/
inductive PayResult where
  | success
  | failure
deriving DecidableEq, Repr

/-- Response of POST /api/orders. -/
inductive OrderOutcome where
  | created (totalAmount : Int) (items : List OrderItem)
  | badRequest (msg : String)
  | notFound (msg : String)
  | paymentFailed
  | serverError
deriving DecidableEq, Repr

/-- Mongoose Product.updateOne({sku}, {inc stock by qty}): updates the
first matching document, no-op when no document matches. -/
def bumpStock : ProductDb → String → Int → ProductDb
  | [], _, _ => []
  | e :: rest, sku, qty =>
    if e.1 = sku then (e.1, { e.2 with stock := e.2.stock + qty }) :: rest
    else e :: bumpStock rest sku qty

/-- The catch-block rollback loop (order.js lines 183-189): for each
already-snapshotted item, increment the authoritative stock back. -/
def rollbackItems : ProductDb → List OrderItem → ProductDb
  | db, [] => db
  | db, item :: rest => rollbackItems (bumpStock db item.sku item.qty) rest

/-- The per-item loop of POST /api/orders (order.js lines 31-64): validate
the item, read the Product, reject on absence or insufficient stock
(early returns that do NOT roll back earlier decrements), then perform the
guarded decrement (findOneAndUpdate with stock >= qty), accumulate the
total and snapshot the order line. Returns the store after the decrements
performed so far, the snapshots, the running total and the error, if any. -/
def processItems (db : ProductDb) (acc : List OrderItem) (total : Int) :
    List (String × Int) → ProductDb × List OrderItem × Int × Option OrderOutcome
  | [] => (db, acc, total, none)
  | (sku, qty) :: rest =>
    if sku = "" ∨ qty < 1 then
      (db, acc, total,
       some (.badRequest "Each item must have a valid SKU and a positive integer quantity."))
    else
      match alookup db sku with
      | none => (db, acc, total, some (.notFound "Product not found."))
      | some product =>
        if product.stock < qty then
          (db, acc, total, some (.badRequest "Insufficient stock for product."))
        else
          -- findOneAndUpdate({sku, stock >= qty}, {inc stock by -qty});
          -- sequentially the guard re-reads the same document.
          if product.stock ≥ qty then
            processItems (bumpStock db sku (-qty))
              (acc ++ [{ sku := sku, qty := qty, priceAtOrder := product.price,
                         productNameAtOrder := product.productname }])
              (total + product.price * qty) rest
          else
            (db, acc, total, some (.badRequest "Failed to update stock for product."))

/-- POST /api/orders (order.js lines 18-196). The items loop decrements
authoritative stock one item at a time; then createPayment is called: on
result.success false the handler returns the error WITHOUT touching the
decremented stock (lines 66-75); on success, the order save / email steps
may throw (modelled by postThrows), in which case the catch block rolls
back every snapshotted decrement (lines 182-195). Early returns inside
the loop also perform no rollback (they return, they do not throw). -/
def createOrder (db : ProductDb) (items : List (String × Int))
    (shippingPresent : Bool) (pay : PayResult) (postThrows : Bool) :
    ProductDb × OrderOutcome :=
  if items.isEmpty ∨ ¬ shippingPresent then
    (db, .badRequest "Order must contain items and a shipping address.")
  else
    match processItems db [] 0 items with
    | (db1, _, _, some e) => (db1, e)
    | (db1, acc, total, none) =>
      match pay with
      | .failure => (db1, .paymentFailed)
      | .success =>
        if postThrows then (rollbackItems db1 acc, .serverError)
        else (db1, .created total acc)

/-! ## Reconciler: POST /api/payment/hook (src/unnamed/part_009 lines 88-203) -/

/-- A Payment document as touched by the webhook handler: only the status
field is read or written there; the remaining fields (orderId key,
receipt, amountPaid, userId, notes) are carried by the key or untouched. -/
structure PaymentRec where
  status : String
deriving DecidableEq, Repr

/-- An Order document as touched by the webhook handler: its status and
its line items (sku and quantity, the data stock compensation would
need). Keyed by orderId (the provider reference). -/
structure OrderRec where
  status : String
  items : List (String × Int)
deriving DecidableEq, Repr

/-- The persistent state the webhook handler can reach: Payment and Order
collections keyed by the provider order reference, and authoritative
product stock keyed by sku. -/
structure AppState where
  payments : List (String × PaymentRec)
  orders : List (String × OrderRec)
  productStock : List (String × Int)
deriving DecidableEq, Repr

/-- The status enum of the Payment schema (src/unnamed/part_014, the
schema whose orderId field the webhook lookup uses): Mongoose rejects any
other status value at save time with a ValidationError. -/
def paymentStatusEnum : List String := ["created", "captured", "failed"]

/-- POST /api/payment/hook (part_009 lines 88-203). After signature
validation: Payment.findOne by the provider order_id; the unconditional
payment.status assignment throws a TypeError when no record matched
(caught at line 199, answered 500, nothing written). Then payment.save():
a raw provider status outside the Payment schema enum makes save() throw
a ValidationError (answered 500, nothing written); an allowed status is
persisted. Then Order.findOne: a missing order throws at order.save
(answered 500, the payment write already persisted). The event dispatch
sets order.status to processing on payment.captured, failed on
payment.failed, and leaves it unchanged otherwise; order.save writes the
document back (both those statuses are within the Order schema enum). No
branch touches authoritative product stock. On payment.captured the
handler then reads req.user.email, but the webhook route has no auth
middleware, so req.user is undefined and the access throws after both
saves (answered 500); other events are answered 200. -/
def paymentHook (s : AppState) (sigValid : Bool) (event orderRef payStatus : String) :
    AppState × Int :=
  if ¬ sigValid then
    (s, 400)
  else
    match alookup s.payments orderRef with
    | none => (s, 500)
    | some _ =>
      if ¬ payStatus ∈ paymentStatusEnum then
        (s, 500)
      else
        let payments1 := aset s.payments orderRef { status := payStatus }
        match alookup s.orders orderRef with
        | none => ({ s with payments := payments1 }, 500)
        | some ord =>
          let ordStatus :=
            if event = "payment.captured" then "processing"
            else if event = "payment.failed" then "failed"
            else ord.status
          let s1 : AppState :=
            { s with payments := payments1,
                     orders := aset s.orders orderRef { ord with status := ordStatus } }
          if event = "payment.captured" then (s1, 500) else (s1, 200)

/-! ## Reservation reclaimer: restoreExpiringCartHolds
(src/unnamed/part_008 lines 92-134) -/

/-- The skip test of the sweep loop (part_008 lines 109-121): quantity and
createdAt go through parseInt; the guard
(not quantity or not createdAt or isNaN(...)) skips a hold whose parsed
quantity or createdAt is NaN (missing or non-numeric, modelled none) OR
ZERO (0 is falsy in JavaScript); then age = now - createdAt below
ttl * 1000 milliseconds also skips. -/
def holdSkipped (now ttl : Int) (h : HoldHash) : Bool :=
  let quantity := h.quantity.getD 0
  let createdAt := h.createdAt.getD 0
  quantity = 0 ∨ createdAt = 0 ∨ now - createdAt < ttl * 1000

/-- The sweep loop over the snapshot of hold keys (part_008 lines
106-130): each skipped hold survives; each processed hold INCRBYs its
product stock counter by its quantity and is deleted. -/
def sweepGo (now ttl : Int) (stocks : List (String × Int)) :
    List ((String × String) × HoldHash) →
    List (String × Int) × List ((String × String) × HoldHash)
  | [] => (stocks, [])
  | e :: rest =>
    if holdSkipped now ttl e.2 then
      let p := sweepGo now ttl stocks rest
      (p.1, e :: p.2)
    else
      sweepGo now ttl (incrbyK stocks e.1.1 (e.2.quantity.getD 0)) rest

/-- restoreExpiringCartHolds (part_008 lines 92-134), at a given wall
clock now (milliseconds) and TTL (seconds, HOLD_EXPIRY_SECONDS, default
900): sweeps every hold key of the fast store. -/
def restoreExpiringCartHolds (r : Redis) (now ttl : Int) : Redis :=
  let p := sweepGo now ttl r.stocks r.holds
  { stocks := p.1, holds := p.2 }

/-- Quantity returned to the stock counter of a given product by one
sweep: the sum of the recorded quantities of its non-skipped holds. -/
def reclaimedSum (now ttl : Int) :
    List ((String × String) × HoldHash) → String → Int
  | [], _ => 0
  | e :: rest, p =>
    (if ¬ holdSkipped now ttl e.2 ∧ e.1.1 = p then e.2.quantity.getD 0 else 0)
      + reclaimedSum now ttl rest p

/-! ## Store lemmas -/

theorem alookup_aset_self {κ α : Type} [DecidableEq κ] (l : List (κ × α)) (k : κ) (v : α) :
    alookup (aset l k v) k = some v := by
  induction l with
  | nil => simp [aset, alookup]
  | cons e rest ih =>
    by_cases h : e.1 = k
    · simp [aset, alookup, h]
    · simp [aset, alookup, h, ih]

theorem alookup_aset_ne {κ α : Type} [DecidableEq κ] (l : List (κ × α)) (k p : κ) (v : α)
    (h : p ≠ k) : alookup (aset l k v) p = alookup l p := by
  induction l with
  | nil => simp [aset, alookup, if_neg (Ne.symm h)]
  | cons e rest ih =>
    by_cases he : e.1 = k
    · have hep : ¬ e.1 = p := by rw [he]; exact Ne.symm h
      simp only [aset, if_pos he, alookup, if_neg (Ne.symm h), if_neg hep]
    · simp only [aset, if_neg he, alookup]
      by_cases hp : e.1 = p
      · simp [if_pos hp]
      · simp [if_neg hp, ih]

theorem aset_self_of_alookup {κ α : Type} [DecidableEq κ] (l : List (κ × α)) (k : κ) (v : α)
    (h : alookup l k = some v) : aset l k v = l := by
  induction l with
  | nil => simp [alookup] at h
  | cons e rest ih =>
    obtain ⟨k1, v1⟩ := e
    by_cases he : k1 = k
    · subst he
      simp [alookup] at h
      subst h
      simp [aset]
    · simp only [alookup, if_neg he] at h
      simp [aset, he, ih h]

theorem alookup_aerase_self {κ α : Type} [DecidableEq κ] (l : List (κ × α)) (k : κ) :
    alookup (aerase l k) k = none := by
  induction l with
  | nil => rfl
  | cons e rest ih =>
    by_cases h : e.1 = k
    · simp [aerase, h, ih]
    · simp [aerase, alookup, h, ih]

theorem getInt_aset_self (l : List (String × Int)) (k : String) (v : Int) :
    getInt (aset l k v) k = v := by
  simp [getInt, alookup_aset_self]

theorem getInt_incrbyK_self (l : List (String × Int)) (k : String) (v : Int) :
    getInt (incrbyK l k v) k = getInt l k + v := by
  simp [incrbyK, getInt_aset_self]

theorem getInt_incrbyK (l : List (String × Int)) (k p : String) (v : Int) :
    getInt (incrbyK l k v) p = getInt l p + (if p = k then v else 0) := by
  by_cases h : p = k
  · subst h
    simp [getInt_incrbyK_self]
  · simp [incrbyK, getInt, alookup_aset_ne _ _ _ _ h, h]

/-! ## Sweep lemmas -/

theorem sweepGo_holds (now ttl : Int) (stocks : List (String × Int))
    (l : List ((String × String) × HoldHash)) :
    (sweepGo now ttl stocks l).2 = l.filter (fun e => holdSkipped now ttl e.2) := by
  induction l generalizing stocks with
  | nil => simp [sweepGo]
  | cons e rest ih =>
    by_cases h : holdSkipped now ttl e.2
    · simp [sweepGo, h, ih]
    · simp [sweepGo, h, ih]

theorem sweepGo_stocks (now ttl : Int) (stocks : List (String × Int))
    (l : List ((String × String) × HoldHash)) (p : String) :
    getInt (sweepGo now ttl stocks l).1 p
      = getInt stocks p + reclaimedSum now ttl l p := by
  induction l generalizing stocks with
  | nil => simp [sweepGo, reclaimedSum]
  | cons e rest ih =>
    by_cases h : holdSkipped now ttl e.2
    · simp [sweepGo, h, ih, reclaimedSum]
    · have hG : sweepGo now ttl stocks (e :: rest)
          = sweepGo now ttl (incrbyK stocks e.1.1 (e.2.quantity.getD 0)) rest := by
        simp [sweepGo, h]
      rw [hG, ih, getInt_incrbyK, reclaimedSum]
      by_cases hp : e.1.1 = p
      · subst hp
        simp [h]
        omega
      · simp [h, hp]
        exact fun hk => absurd hk.symm hp

theorem sweepGo_all_skipped (now ttl : Int) (stocks : List (String × Int))
    (l : List ((String × String) × HoldHash))
    (h : ∀ e ∈ l, holdSkipped now ttl e.2 = true) :
    sweepGo now ttl stocks l = (stocks, l) := by
  induction l with
  | nil => simp [sweepGo]
  | cons e rest ih =>
    have he := h e (by simp)
    simp [sweepGo, he, ih (fun x hx => h x (by simp [hx]))]

theorem restore_idempotent (r : Redis) (now ttl : Int) :
    restoreExpiringCartHolds (restoreExpiringCartHolds r now ttl) now ttl
      = restoreExpiringCartHolds r now ttl := by
  have hfil := sweepGo_holds now ttl r.stocks r.holds
  have hall : ∀ e ∈ (sweepGo now ttl r.stocks r.holds).2,
      holdSkipped now ttl e.2 = true := by
    intro e he
    rw [hfil] at he
    exact (List.mem_filter.mp he).2
  have h2 := sweepGo_all_skipped now ttl (sweepGo now ttl r.stocks r.holds).1
      (sweepGo now ttl r.stocks r.holds).2 hall
  simp [restoreExpiringCartHolds, h2]

/-! ## Claim theorems -/

/-- C1: the claim states the ledger invariant StockCounter(p) plus the sum
of active hold quantities equals the authoritative stock after any finite
sequence of completed cart operations. The code violates it: starting
from counter 10 and no holds, two successful addToCart calls for the same
(product, cart) pair of quantities 3 then 2 leave the counter at 5 but
the hold at quantity 2 (the HSET on re-add overwrites the hold instead of
storing the merged total), so counter plus holds is 7, not 10. -/
theorem c1_ledger_invariant_fails_on_second_add :
    (addToCart ⟨[("p", 10)], []⟩ "p" "c" 3 100).2 = CartResp.ok ∧
    (addToCart (addToCart ⟨[("p", 10)], []⟩ "p" "c" 3 100).1 "p" "c" 2 200).2
      = CartResp.ok ∧
    getInt (addToCart (addToCart ⟨[("p", 10)], []⟩ "p" "c" 3 100).1
        "p" "c" 2 200).1.stocks "p" = 5 ∧
    holdsSum (addToCart (addToCart ⟨[("p", 10)], []⟩ "p" "c" 3 100).1
        "p" "c" 2 200).1.holds "p" = 2 ∧
    (5 : Int) + 2 ≠ 10 := by
  decide

/-- C2: the claim states that when the payment-creation step reports
failure, every authoritative stock decrement already performed is
reversed before the error is returned. The code violates it: with one
product of stock 5 and an order of quantity 2, a failing createPayment
makes the handler return the payment error while the product stock stays
at the decremented value 3 (the result.success false branch at order.js
lines 66-75 returns without running any rollback; only thrown exceptions
reach the catch-block rollback). -/
theorem c2_payment_failure_leaves_stock_decremented :
    createOrder [("s1", ⟨10, 5, "n1"⟩)] [("s1", 2)] true .failure false
      = ([("s1", ⟨10, 3, "n1"⟩)], .paymentFailed) ∧ (3 : Int) ≠ 5 := by
  decide

/-- C3: the claim states that a second addToCart for the same (product,
cart) pair merges into the existing hold, giving quantity q1 + q2 with
the createdAt of the first add. The code violates it: after successful
adds of 3 (at time 100) then 2 (at time 200), the single hold stores
quantity 2 and createdAt 200 — the HSET at cart.js lines 29-32 writes the
raw request quantity, not the computed newTotalHoldQuantity, and
refreshes createdAt on every add. -/
theorem c3_second_add_overwrites_hold :
    (addToCart (addToCart ⟨[("p", 10)], []⟩ "p" "c" 3 100).1 "p" "c" 2 200).2
      = CartResp.ok ∧
    alookup (addToCart (addToCart ⟨[("p", 10)], []⟩ "p" "c" 3 100).1
        "p" "c" 2 200).1.holds ("p", "c") = some ⟨some 2, some 200⟩ ∧
    (2 : Int) ≠ 3 + 2 ∧ (200 : Int) ≠ 100 := by
  decide

/-- C4: the claim states that a failed-payment event restores the
authoritative stock of every line item of the order. The code violates
it: delivering a valid payment.failed event for order R (one line of
product p, quantity 5, current authoritative stock 0) sets
Payment.status and Order.status to failed but leaves the authoritative
stock of p at 0 instead of 5 — no branch of the webhook handler touches
product stock. -/
theorem c4_failed_event_stock_not_compensated :
    paymentHook ⟨[("R", ⟨"created"⟩)], [("R", ⟨"pending", [("p", 5)]⟩)], [("p", 0)]⟩
        true "payment.failed" "R" "failed"
      = (⟨[("R", ⟨"failed"⟩)], [("R", ⟨"failed", [("p", 5)]⟩)], [("p", 0)]⟩, 200) ∧
    getInt [("p", 0)] "p" ≠ 0 + 5 := by
  decide

/-- C5: the claim states that an event whose provider reference matches
no stored record is acknowledged with HTTP 200 as an idempotent no-op.
The code violates the acknowledgement half: with no matching Payment, the
unconditional payment.status assignment throws a TypeError on null and
the catch block answers HTTP 500 (so the provider will keep retrying),
although no state is mutated. -/
theorem c5_unknown_reference_answers_500 :
    paymentHook ⟨[], [], [("p", 3)]⟩ true "payment.captured" "X" "captured"
      = (⟨[], [], [("p", 3)]⟩, 500) ∧ (500 : Int) ≠ 200 := by
  decide

/-- C6: the cart add-then-remove scenario of the spec holds on the code:
from counter 10 and no hold, addToCart of 3 gives counter 7 and a hold of
3; removeFromCart of 2 gives counter 9 and the hold at 1 (createdAt
untouched); removeFromCart of 1 gives counter 10 and the hold deleted. -/
theorem c6_cart_add_remove_scenario :
    addToCart ⟨[("p", 10)], []⟩ "p" "cart" 3 500
      = (⟨[("p", 7)], [(("p", "cart"), ⟨some 3, some 500⟩)]⟩, .ok) ∧
    removeFromCart ⟨[("p", 7)], [(("p", "cart"), ⟨some 3, some 500⟩)]⟩ "p" "cart" 2
      = (⟨[("p", 9)], [(("p", "cart"), ⟨some 1, some 500⟩)]⟩, .ok) ∧
    removeFromCart ⟨[("p", 9)], [(("p", "cart"), ⟨some 1, some 500⟩)]⟩ "p" "cart" 1
      = (⟨[("p", 10)], []⟩, .ok) := by
  decide

/-- C7: whenever the current stock counter is strictly below the current
hold quantity plus the requested quantity, addToCart answers the
insufficient-stock error and returns the store unchanged: neither the
stock counter nor the hold record is mutated. -/
theorem c7_add_rejected_without_mutation (r : Redis) (productId cartId : String)
    (quantity now : Int)
    (h : getInt r.stocks productId < holdQuantity r productId cartId + quantity) :
    addToCart r productId cartId quantity now
      = (r, .err "Not enough stock available") := by
  simp [addToCart, h]

/-- Witness for C7 at a concrete store: counter 2, hold 1, request 2. -/
theorem c7_add_rejected_without_mutation_witness :
    getInt (⟨[("p", 2)], [(("p", "c"), ⟨some 1, some 0⟩)]⟩ : Redis).stocks "p"
        < holdQuantity ⟨[("p", 2)], [(("p", "c"), ⟨some 1, some 0⟩)]⟩ "p" "c" + 2 ∧
    addToCart ⟨[("p", 2)], [(("p", "c"), ⟨some 1, some 0⟩)]⟩ "p" "c" 2 9
      = (⟨[("p", 2)], [(("p", "c"), ⟨some 1, some 0⟩)]⟩,
         .err "Not enough stock available") :=
  ⟨by decide, c7_add_rejected_without_mutation _ _ _ _ _ (by decide)⟩

/-- C8 counterexample: the claim states the sweep reclaims exactly the
holds whose age is at least the TTL, skipping only holds with missing or
non-numeric fields. Refuted: a hold whose quantity field is the (present,
numeric) value 0 and whose age vastly exceeds the 900 second TTL survives
the sweep untouched, because 0 is falsy in the guard of part_008 line
112. -/
theorem c8_zero_quantity_expired_hold_survives :
    ((1000001 : Int) - 1 ≥ 900 * 1000) ∧
    restoreExpiringCartHolds ⟨[("p", 4)], [(("p", "c"), ⟨some 0, some 1⟩)]⟩ 1000001 900
      = ⟨[("p", 4)], [(("p", "c"), ⟨some 0, some 1⟩)]⟩ := by
  decide

/-- C8 (amended): one sweep pass deletes exactly the holds that are not
skipped — skipped meaning a missing, non-numeric or ZERO quantity or
createdAt field, or age below ttl seconds — and adds to each product's
stock counter exactly the summed quantities of its reclaimed holds;
corrupt or fresh holds survive without aborting the sweep, and a second
pass run immediately after (same clock) changes nothing. -/
theorem c8_sweep_characterization_and_idempotence (r : Redis) (now ttl : Int) :
    (restoreExpiringCartHolds r now ttl).holds
        = r.holds.filter (fun e => holdSkipped now ttl e.2) ∧
    (∀ p, getInt (restoreExpiringCartHolds r now ttl).stocks p
        = getInt r.stocks p + reclaimedSum now ttl r.holds p) ∧
    restoreExpiringCartHolds (restoreExpiringCartHolds r now ttl) now ttl
      = restoreExpiringCartHolds r now ttl := by
  refine ⟨?_, ?_, restore_idempotent r now ttl⟩
  · simpa [restoreExpiringCartHolds] using sweepGo_holds now ttl r.stocks r.holds
  · intro p
    simpa [restoreExpiringCartHolds] using sweepGo_stocks now ttl r.stocks r.holds p

/-- C9: a restore-stock call with a positive client-supplied quantity
increments the product's stock counter by exactly that claimed quantity
and deletes the (product, cart) hold, for every store state — in
particular whatever quantity the hold actually recorded, so a client
claiming more than was held inflates the counter by the claimed amount
(see the witness: recorded hold 1, claimed 5, counter grows by 5). -/
theorem c9_restore_stock_ignores_recorded_hold (r : Redis) (cartId productId : String)
    (qty : Int) (hc : cartId ≠ "") (hq : 0 < qty) :
    (restoreStock r cartId [(productId, qty)]).2 = CartResp.ok ∧
    getInt (restoreStock r cartId [(productId, qty)]).1.stocks productId
      = getInt r.stocks productId + qty ∧
    alookup (restoreStock r cartId [(productId, qty)]).1.holds (productId, cartId)
      = none := by
  have hr : restoreStock r cartId [(productId, qty)]
      = (⟨incrbyK r.stocks productId qty, aerase r.holds (productId, cartId)⟩, .ok) := by
    simp [restoreStock, hc, restoreStockItems, hq]
  rw [hr]
  exact ⟨rfl, by simp [getInt_incrbyK_self], by simp [alookup_aerase_self]⟩

/-- Witness for C9: the hold records quantity 1 but the client claims 5;
the counter is inflated from 0 to 5 and the hold is deleted. -/
theorem c9_restore_stock_ignores_recorded_hold_witness :
    ("c" : String) ≠ "" ∧ (0 : Int) < 5 ∧
    ((restoreStock ⟨[("p", 0)], [(("p", "c"), ⟨some 1, some 7⟩)]⟩ "c" [("p", 5)]).2
        = CartResp.ok ∧
     getInt (restoreStock ⟨[("p", 0)], [(("p", "c"), ⟨some 1, some 7⟩)]⟩ "c"
        [("p", 5)]).1.stocks "p"
        = getInt (⟨[("p", 0)], [(("p", "c"), ⟨some 1, some 7⟩)]⟩ : Redis).stocks "p" + 5 ∧
     alookup (restoreStock ⟨[("p", 0)], [(("p", "c"), ⟨some 1, some 7⟩)]⟩ "c"
        [("p", 5)]).1.holds ("p", "c") = none) :=
  ⟨by decide, by decide,
   c9_restore_stock_ignores_recorded_hold _ _ _ _ (by decide) (by decide)⟩

/-- C10 counterexample: the claim states that for any other event type
the raw provider status string is written into Payment.status. Refuted:
the Payment schema restricts status to created/captured/failed, so a
payment.authorized event carrying the raw status authorized makes
payment.save() throw a ValidationError; the handler answers 500 and the
stored Payment keeps its previous status (created), it is not overwritten
with authorized. -/
theorem c10_out_of_enum_status_not_persisted :
    paymentHook ⟨[("R", ⟨"created"⟩)], [("R", ⟨"pending", [("p", 5)]⟩)], [("p", 2)]⟩
        true "payment.authorized" "R" "authorized"
      = (⟨[("R", ⟨"created"⟩)], [("R", ⟨"pending", [("p", 5)]⟩)], [("p", 2)]⟩, 500) ∧
    alookup [("R", (⟨"created"⟩ : PaymentRec))] "R" = some ⟨"created"⟩ ∧
    ("created" : String) ≠ "authorized" := by
  decide

/-- C10 (amended): a validly signed event with a known order reference
whose type is neither payment.captured nor payment.failed, and whose raw
provider status lies within the Payment schema enum (created, captured,
failed), is answered 200; the Order collection is left unchanged (the
save writes back the very same status), authoritative product stock is
untouched, and Payment.status is overwritten with the raw status string.
Outside the enum, payment.save() throws a ValidationError and the handler
answers 500 with nothing persisted (the counterexample). -/
theorem c10_other_events_frame_for_allowed_status (s : AppState)
    (event orderRef payStatus : String) (pay : PaymentRec) (ord : OrderRec)
    (hp : alookup s.payments orderRef = some pay)
    (ho : alookup s.orders orderRef = some ord)
    (hv : payStatus ∈ paymentStatusEnum)
    (hc : event ≠ "payment.captured") (hf : event ≠ "payment.failed") :
    (paymentHook s true event orderRef payStatus).2 = 200 ∧
    (paymentHook s true event orderRef payStatus).1.orders = s.orders ∧
    (paymentHook s true event orderRef payStatus).1.productStock = s.productStock ∧
    alookup (paymentHook s true event orderRef payStatus).1.payments orderRef
      = some ⟨payStatus⟩ := by
  have hset : aset s.orders orderRef { ord with status := ord.status } = s.orders := by
    have hrec : ({ ord with status := ord.status } : OrderRec) = ord := rfl
    rw [hrec]
    exact aset_self_of_alookup _ _ _ ho
  simp [paymentHook, hp, ho, hv, hc, hf, hset, alookup_aset_self]

/-- Witness for C10: an order.paid event carrying the in-enum raw status
captured, for a known reference. -/
theorem c10_other_events_frame_for_allowed_status_witness :
    alookup ([("R", (⟨"created"⟩ : PaymentRec))]) "R" = some ⟨"created"⟩ ∧
    alookup ([("R", (⟨"pending", [("p", 5)]⟩ : OrderRec))]) "R"
      = some ⟨"pending", [("p", 5)]⟩ ∧
    ("captured" : String) ∈ paymentStatusEnum ∧
    ("order.paid" : String) ≠ "payment.captured" ∧
    ("order.paid" : String) ≠ "payment.failed" ∧
    ((paymentHook ⟨[("R", ⟨"created"⟩)], [("R", ⟨"pending", [("p", 5)]⟩)], [("p", 2)]⟩
        true "order.paid" "R" "captured").2 = 200 ∧
     (paymentHook ⟨[("R", ⟨"created"⟩)], [("R", ⟨"pending", [("p", 5)]⟩)], [("p", 2)]⟩
        true "order.paid" "R" "captured").1.orders
        = (⟨[("R", ⟨"created"⟩)], [("R", ⟨"pending", [("p", 5)]⟩)], [("p", 2)]⟩ : AppState).orders ∧
     (paymentHook ⟨[("R", ⟨"created"⟩)], [("R", ⟨"pending", [("p", 5)]⟩)], [("p", 2)]⟩
        true "order.paid" "R" "captured").1.productStock
        = (⟨[("R", ⟨"created"⟩)], [("R", ⟨"pending", [("p", 5)]⟩)], [("p", 2)]⟩ : AppState).productStock ∧
     alookup (paymentHook ⟨[("R", ⟨"created"⟩)], [("R", ⟨"pending", [("p", 5)]⟩)], [("p", 2)]⟩
        true "order.paid" "R" "captured").1.payments "R"
        = some ⟨"captured"⟩) :=
  ⟨by decide, by decide, by decide, by decide, by decide,
   c10_other_events_frame_for_allowed_status
     ⟨[("R", ⟨"created"⟩)], [("R", ⟨"pending", [("p", 5)]⟩)], [("p", 2)]⟩
     "order.paid" "R" "captured" ⟨"created"⟩ ⟨"pending", [("p", 5)]⟩
     (by decide) (by decide) (by decide) (by decide) (by decide)⟩

end Agrofarm
